import Mathlib

/-!
Verification of the multi-judge consensus evaluator
(`src/scripts/multi_judge_evaluator.py`) and its provider gateway
(`src/scripts/llm_client.py`).

The Python code is shallowly embedded: pure computations become Lean
functions, the LLM gateway becomes an explicit oracle argument
(`gw : String → String → Option String`, model id and prompt in, response
out, `none` for a call that failed after retries), and `json.loads`
becomes an explicit parse oracle (`parse : String → Option JVal`,
`none` standing for `json.JSONDecodeError`).  Wall-clock timestamps and
durations carried by the Python result records are not modelled.
Apostrophes and single-quote characters occurring inside the Python
string literals are elided from the corresponding Lean literals.
-/

/-- A decoded JSON value, as produced by Python `json.loads`.
`jnum` stands for a non-integral JSON number (a Python `float`); its
numeric value is irrelevant everywhere below because
`isinstance(x, int)` is `False` for floats, so it carries no payload. -/
inductive JVal where
  | jnull
  | jbool (b : Bool)
  | jint (n : Int)
  | jnum
  | jstr (s : String)
  | jarr (elems : List JVal)
  | jobj (fields : List (String × JVal))

/-- Lookup in a decoded JSON object.  Python `json.loads` keeps the
last occurrence of a duplicated key, so the lookup takes the last
binding. -/
def lookupLast (fields : List (String × JVal)) (k : String) : Option JVal :=
  match fields with
  | [] => none
  | (k', v) :: rest =>
    match lookupLast rest k with
    | some r => some r
    | none => if k' = k then some v else none

/-- `parsed[k]` / `parsed.get(k)` on a decoded value: a field lookup when
the value is a dict, `none` otherwise. -/
def pyGet (v : JVal) (k : String) : Option JVal :=
  match v with
  | .jobj fields => lookupLast fields k
  | _ => none

/-- Python `isinstance(parsed, dict)`. -/
def isDict (v : JVal) : Bool :=
  match v with
  | .jobj _ => true
  | _ => false

/-- Python `isinstance(x, int)` on a json-decoded value.  `bool` is a
subclass of `int` in Python, so `isinstance(True, int)` is `True`;
floats, strings, `None` and containers are not ints. -/
def pyIsInt (x : Option JVal) : Bool :=
  match x with
  | some (.jint _) => true
  | some (.jbool _) => true
  | _ => false

/-- The integer value Python uses for a json-decoded value in an
arithmetic comparison: `True == 1` and `False == 0`.  Values of other
shapes never reach a comparison in the source (a `TypeError` would be
raised first, see `judge_schema_valid`); the returned 0 for them is
irrelevant. -/
def pyIntVal (x : Option JVal) : Int :=
  match x with
  | some (.jint n) => n
  | some (.jbool b) => if b then 1 else 0
  | _ => 0

/-- Python `isinstance(x, str)`. -/
def pyIsStr (x : Option JVal) : Bool :=
  match x with
  | some (.jstr _) => true
  | _ => false

/-- `CRITERIA` (multi_judge_evaluator.py line 17). -/
def CRITERIA : List String := ["factual_correctness", "actionability", "analytical_depth"]

/-- `SCORE_MIN` (line 18). -/
def SCORE_MIN : Int := 1

/-- `SCORE_MAX` (line 19). -/
def SCORE_MAX : Int := 5

/-- The meta-judge criterion keys, `[f"final_{c}" for c in CRITERIA]`
(line 186). -/
def META_CRITERIA : List String := CRITERIA.map (fun c => "final_" ++ c)

/-- The validity check of `_run_single_judge` (lines 140-145):

```
valid = True
if not isinstance(parsed, dict): valid = False
if not all(k in parsed for k in CRITERIA + ["reasoning"]): valid = False
if not all(isinstance(parsed[k], int) for k in CRITERIA): valid = False
if not all(SCORE_MIN <= parsed[k] <= SCORE_MAX for k in CRITERIA): valid = False
if not isinstance(parsed.get("reasoning"), str): valid = False
```

The five statements run sequentially on a flag; on some malformed
payloads a later statement raises (`KeyError` on a missing criterion
key, `TypeError` on ordering a non-numeric value) and the surrounding
`except Exception` then records an error result.  Either way the
verdict is recorded as valid exactly when all five checks pass, which
is what this conjunction computes: an exception can only fire on a
payload for which some conjunct below is already false. -/
def judge_schema_valid (parsed : JVal) : Bool :=
  isDict parsed
  && (CRITERIA ++ ["reasoning"]).all (fun k => (pyGet parsed k).isSome)
  && CRITERIA.all (fun k => pyIsInt (pyGet parsed k))
  && CRITERIA.all (fun k =>
      decide (SCORE_MIN ≤ pyIntVal (pyGet parsed k)) && decide (pyIntVal (pyGet parsed k) ≤ SCORE_MAX))
  && pyIsStr (pyGet parsed "reasoning")

/-- The validity check of `_run_meta_judge` (lines 187-192), identical
in shape to `judge_schema_valid` but over the `final_`-prefixed
criterion keys plus the two string fields `analysis` and
`consensus_reasoning`. -/
def meta_schema_valid (parsed : JVal) : Bool :=
  isDict parsed
  && (META_CRITERIA ++ ["analysis", "consensus_reasoning"]).all (fun k => (pyGet parsed k).isSome)
  && META_CRITERIA.all (fun k => pyIsInt (pyGet parsed k))
  && META_CRITERIA.all (fun k =>
      decide (SCORE_MIN ≤ pyIntVal (pyGet parsed k)) && decide (pyIntVal (pyGet parsed k) ≤ SCORE_MAX))
  && (["analysis", "consensus_reasoning"] : List String).all (fun k => pyIsStr (pyGet parsed k))

/-- Code-fence stripping of `_run_single_judge` / `_run_meta_judge`
(lines 133-138 and 179-184): Python slicing `s[7:-3]` on a string known
to start with the 7-character fence is `(s.drop 7).dropRight 3`. -/
def clean_output (raw : String) : String :=
  let s := raw.trim
  if s.startsWith "```json" then ((s.drop 7).dropRight 3).trim
  else if s.startsWith "```" then ((s.drop 3).dropRight 3).trim
  else s

/-- The result dict built by `_run_single_judge` (line 130):
`{"judge_id": ..., "raw_output": ..., "parsed_result": None, "error": None}`. -/
structure JudgeResult where
  judge_id : String
  raw_output : Option String
  parsed_result : Option JVal
  error : Option String

/-- `_run_single_judge` (lines 119-160), with the gateway response
passed in (`raw_output = query_llm(...)`, `none` for a `None` return)
and `json.loads` abstracted as `parse`.  Python `if raw_output:` is
false both for `None` and for the empty string, so an empty-string
gateway success lands in the same `No response` branch as a failure.
On a payload that fails the schema checks the source records either
the `Output JSON structure, type, or score range invalid` message or,
when the checks raise (`KeyError`/`TypeError`), an
`Unexpected parsing error: ...` message; both paths record an invalid
verdict with an error and no parsed result, and are folded into the
former message here (no claim observes the message text). -/
def run_single_judge (judge_id : String) (raw_output : Option String)
    (parse : String → Option JVal) : JudgeResult :=
  match raw_output with
  | some raw =>
    if raw = "" then
      { judge_id := judge_id, raw_output := raw_output, parsed_result := none,
        error := some ("No response from judge " ++ judge_id ++ " after retries.") }
    else
      match parse (clean_output raw) with
      | none =>
        { judge_id := judge_id, raw_output := raw_output, parsed_result := none,
          error := some "Invalid JSON format" }
      | some parsed =>
        if judge_schema_valid parsed then
          { judge_id := judge_id, raw_output := raw_output, parsed_result := some parsed,
            error := none }
        else
          { judge_id := judge_id, raw_output := raw_output, parsed_result := none,
            error := some "Output JSON structure, type, or score range invalid" }
  | none =>
    { judge_id := judge_id, raw_output := raw_output, parsed_result := none,
      error := some ("No response from judge " ++ judge_id ++ " after retries.") }

/-- Python truthiness of a json-decoded value (`if parsed:` at
line 81). -/
def pyTruthy (v : JVal) : Bool :=
  match v with
  | .jnull => false
  | .jbool b => b
  | .jint n => decide (n ≠ 0)
  | .jnum => true
  | .jstr s => decide (s ≠ "")
  | .jarr elems => !elems.isEmpty
  | .jobj fields => !fields.isEmpty

/-- Python `str()` of a json-decoded score or rationale value as
interpolated into the meta-judge prompt (line 82).  In the source this
is only reached for values of a schema-valid payload (ints, bools and
strings); containers would print their Python repr, which is not
modelled. -/
def pyStr (v : JVal) : String :=
  match v with
  | .jnull => "None"
  | .jbool b => if b then "True" else "False"
  | .jint n => toString n
  | .jnum => "<float>"
  | .jstr s => s
  | .jarr _ => "<list>"
  | .jobj _ => "<dict>"

/-- `parsed.get(k, default)` rendered with `str()` (line 82: the
per-criterion scores default to `?`, the reasoning defaults to `N/A`). -/
def pyGetStr (parsed : JVal) (k : String) (default : String) : String :=
  match pyGet parsed k with
  | some v => pyStr v
  | none => default

/-- The `Raw Output:` line of a judge section in the meta-judge prompt
(lines 87 and 90): the raw text truncated to 150 characters when
truthy, `N/A` otherwise.  The source wraps the truncated text in
single quotes, elided here. -/
def raw_line (raw : Option String) : String :=
  match raw with
  | some s => if s = "" then "Raw Output: N/A\n\n" else "Raw Output: " ++ s.take 150 ++ "... \n\n"
  | none => "Raw Output: N/A\n\n"

/-- The `--- Judge: ... ---` header opening each verdict section of the
meta-judge prompt (line 80).  The source falls back to a positional
`Judge_{i+1}` label only when the `judge_id` key is absent, which never
happens (`_run_single_judge` always sets it), so the real judge
identity is always used. -/
def judge_header (r : JudgeResult) : String :=
  "--- Judge: " ++ r.judge_id ++ " ---\n"

/-- The body of one verdict section of the meta-judge prompt
(lines 81-90): scores and reasoning for a (truthy) parsed verdict, an
error status line otherwise. -/
def judge_body (r : JudgeResult) : String :=
  match r.parsed_result with
  | some parsed =>
    if pyTruthy parsed then
      "Scores: FC=" ++ pyGetStr parsed "factual_correctness" "?"
        ++ ", A=" ++ pyGetStr parsed "actionability" "?"
        ++ ", AD=" ++ pyGetStr parsed "analytical_depth" "?" ++ "\n"
        ++ "Reasoning: " ++ pyGetStr parsed "reasoning" "N/A" ++ "\n\n"
    else
      match r.error with
      | some err =>
        if err = "" then "Status: Invalid Output Format\n" ++ raw_line r.raw_output
        else "Status: Error - " ++ err ++ "\n" ++ raw_line r.raw_output
      | none => "Status: Invalid Output Format\n" ++ raw_line r.raw_output
  | none =>
    match r.error with
    | some err =>
      if err = "" then "Status: Invalid Output Format\n" ++ raw_line r.raw_output
      else "Status: Error - " ++ err ++ "\n" ++ raw_line r.raw_output
    | none => "Status: Invalid Output Format\n" ++ raw_line r.raw_output

/-- One full verdict section of the meta-judge prompt. -/
def judge_section (r : JudgeResult) : String :=
  judge_header r ++ judge_body r

/-- The `inputs_str` accumulator of `_get_meta_judge_prompt`
(lines 72-90): the verdict sections concatenated in the order the
judge outputs were passed in.  No shuffling or anonymisation of the
judge outputs happens anywhere in the source (the module imports no
randomness source). -/
def inputs_str (judge_outputs : List JudgeResult) : String :=
  String.join (judge_outputs.map judge_section)

/-- The meta-judge prompt text preceding the original review
(`_get_meta_judge_prompt`, line 91). -/
def META_PROMPT_P1 : String := "You are a Meta-Judge synthesizing evaluations from multiple AI judges about an AI-generated code review comment. Your goal is to determine the most reliable consensus evaluation.\n\n**Original AI-Generated Review Comment:**\n"

/-- The meta-judge prompt text between the original review and the
verdict sections. -/
def META_PROMPT_P2 : String := "\n\n\n**Individual Judge Evaluations Received:**\n"

/-- The meta-judge prompt text following the verdict sections
(lines 100-116); the `SCORE_MIN`/`SCORE_MAX` f-string interpolations
appear at their values 1 and 5. -/
def META_PROMPT_P3 : String := "\n**Your Meta-Evaluation Task (Chain of Thought):**\n1.  **Analyze Agreement/Disagreement:** Briefly note the level of agreement or disagreement among the valid judge responses for each criterion (Factual Correctness, Actionability, Analytical Depth). Mention any outliers or conflicting reasoning.\n2.  **Synthesize Factual Correctness:** Based on the judges scores and reasoning, determine the most plausible final score (1-5) for Factual Correctness. Justify your choice, especially if handling disagreement.\n3.  **Synthesize Actionability:** Similarly, determine and justify the final score (1-5) for Actionability.\n4.  **Synthesize Analytical Depth:** Similarly, determine and justify the final score (1-5) for Analytical Depth.\n5.  **Final Summary:** Provide a concise overall summary of your synthesis process and final scores.\n\n**Response Format:**\nYour response MUST be ONLY a valid JSON object containing your final synthesis, following this exact structure:\n\x7b\n  \"analysis\": \"<Your brief analysis of judge agreement/disagreement - Step 1>\",\n  \"final_factual_correctness\": <consensus_score_integer_step_2>,\n  \"final_actionability\": <consensus_score_integer_step_3>,\n  \"final_analytical_depth\": <consensus_score_integer_step_4>,\n  \"consensus_reasoning\": \"<Your final summary justification for all scores - Step 5>\"\n\x7d\n"

/-- `_get_meta_judge_prompt` (lines 70-117): the original review and
the verdict sections spliced into the fixed template.  A deterministic
function of its inputs: the verdict sections appear exactly in the
order of `judge_outputs`, each headed by the real judge identity. -/
def get_meta_judge_prompt (original_review : String) (judge_outputs : List JudgeResult) : String :=
  META_PROMPT_P1 ++ original_review ++ META_PROMPT_P2 ++ inputs_str judge_outputs ++ META_PROMPT_P3

/-- The judge prompt text preceding the code context
(`_create_judge_prompt`, lines 36-49); score-range interpolations
appear at their values. -/
def JUDGE_PROMPT_P1 : String := "You are an expert, impartial code review evaluator assessing an AI-generated code review comment.\nEvaluate the comment based *only* on the provided information and the criteria definitions below.\n**Evaluation Criteria (Score 1-5):**\n1.  **Factual Correctness (1-5):** Is the AIs observation/claim technically accurate regarding the provided code context? Ignore suggestions for now, just focus on the observations accuracy.\n    (1=Completely incorrect/hallucinated. 5=Fully accurate and specific.)\n2.  **Actionability (1-5):** Does the AI provide specific, useful, and directly implementable suggestions for improvement?\n    (1=No suggestion, or vague/generic/impossible advice. 5=Provides clear, concrete steps, code example, or specific alternative.)\n3.  **Analytical Depth (1-5):** Does the comment demonstrate a deep understanding of the codes logic, potential issues, root causes, or broader implications? Does it go beyond surface-level observations (like style)?\n    (1=Superficial, obvious, style-only, or irrelevant comment. 5=Insightful analysis of root cause, impact, edge cases, or non-obvious alternatives/consequences.)\n\n**Code Context Provided:**\n"

/-- The judge prompt text between the code context and the review. -/
def JUDGE_PROMPT_P2 : String := "\n\n\n**AI-Generated Review Comment to Evaluate:**\n"

/-- The judge prompt text following the review (lines 56-67). -/
def JUDGE_PROMPT_P3 : String := "\n\n\n**Your Task:**\nProvide integer scores (1-5) for each criterion. Also provide a brief, concise reasoning string explaining *why* you gave those scores, referencing the criteria definitions.\n\n**Response Format:**\nYour response MUST be ONLY a valid JSON object with the following exact keys and value types:\n\x7b\n  \"factual_correctness\": <score_integer>,\n  \"actionability\": <score_integer>,\n  \"analytical_depth\": <score_integer>,\n  \"reasoning\": \"<Concise justification string>\"\n\x7d\n"

/-- `_create_judge_prompt` (lines 36-68): one shared prompt built from
the review text and the (possibly empty, then defaulted) code
context. -/
def create_judge_prompt (review_text : String) (code_context : String) : String :=
  let ctx := if code_context = "" then
      "No specific code context was provided. Evaluate based on the review comments general plausibility and quality."
    else code_context
  JUDGE_PROMPT_P1 ++ ctx ++ JUDGE_PROMPT_P2 ++ review_text ++ JUDGE_PROMPT_P3

/-- The result dict built by `_run_meta_judge` (line 176).  The early
return for an empty verdict list (line 166) produces a dict without
the `model_id` key, hence the `Option`. -/
structure MetaResult where
  model_id : Option String
  raw_output : Option String
  parsed_result : Option JVal
  error : Option String

/-- `_run_meta_judge` (lines 162-208).  With a non-empty verdict list
it always builds the prompt from the full list (valid and invalid
verdicts alike) and performs exactly one gateway call; the schema
check mirrors `run_single_judge` with the meta schema.  As there,
Python `if raw_output:` sends both a `None` and an empty-string
gateway result into the `No response` branch, and the
exception-raising malformed payloads are folded into the schema-error
message. -/
def run_meta_judge (meta_judge_model_id : String) (original_review : String)
    (judge_outputs : List JudgeResult) (gw : String → String → Option String)
    (parse : String → Option JVal) : MetaResult :=
  if judge_outputs.isEmpty then
    { model_id := none, raw_output := none, parsed_result := none,
      error := some "No judge outputs provided." }
  else
    let prompt := get_meta_judge_prompt original_review judge_outputs
    let raw_output := gw meta_judge_model_id prompt
    match raw_output with
    | some raw =>
      if raw = "" then
        { model_id := some meta_judge_model_id, raw_output := raw_output, parsed_result := none,
          error := some ("No response from meta-judge " ++ meta_judge_model_id ++ " after retries.") }
      else
        match parse (clean_output raw) with
        | none =>
          { model_id := some meta_judge_model_id, raw_output := raw_output, parsed_result := none,
            error := some "Invalid JSON format" }
        | some parsed =>
          if meta_schema_valid parsed then
            { model_id := some meta_judge_model_id, raw_output := raw_output,
              parsed_result := some parsed, error := none }
          else
            { model_id := some meta_judge_model_id, raw_output := raw_output, parsed_result := none,
              error := some "Output JSON structure, type, or score range invalid" }
    | none =>
      { model_id := some meta_judge_model_id, raw_output := raw_output, parsed_result := none,
        error := some ("No response from meta-judge " ++ meta_judge_model_id ++ " after retries.") }

/-- One entry of the `llm_models` list in the configuration.  The
evaluator constructor reads only `m["id"]` and `m.get("role")`; the
provider-connection keys are irrelevant to it and omitted. -/
structure ModelEntry where
  id : String
  role : Option String

/-- `self.judge_model_ids` (line 26): ids of the configured models
with role `judge`, in configuration order. -/
def judge_ids (models : List ModelEntry) : List String :=
  (models.filter (fun m => decide (m.role = some "judge"))).map (fun m => m.id)

/-- The `meta_judge_models` local of the constructor (line 27). -/
def meta_ids (models : List ModelEntry) : List String :=
  (models.filter (fun m => decide (m.role = some "meta-judge"))).map (fun m => m.id)

/-- The evaluator state set up by `MultiJudgeEvaluator.__init__`. -/
structure Evaluator where
  judge_model_ids : List String
  meta_judge_model_id : String

/-- `MultiJudgeEvaluator.__init__` (lines 22-35): raises `ValueError`
(modelled as `Except.error`) when no judge-role or no meta-judge-role
model is configured; with several meta-judges the first is used (a
logged, non-fatal policy). -/
def evaluator_init (models : List ModelEntry) : Except String Evaluator :=
  if (judge_ids models).isEmpty then
    .error "Config Error: No models found with role judge in llm_models."
  else
    match meta_ids models with
    | [] => .error "Config Error: No model found with role meta-judge in llm_models."
    | m :: _ => .ok { judge_model_ids := judge_ids models, meta_judge_model_id := m }

/-- The per-artifact record built by `evaluate_review_consensus`
(lines 222-229); the timestamp and duration fields are wall-clock
values and not modelled. -/
structure EvaluationResult where
  original_review : String
  code_context_provided : Bool
  judges : List JudgeResult
  meta_judge : MetaResult

/-- `evaluate_review_consensus` (lines 210-232): one shared judge
prompt, one `_run_single_judge` per configured judge id
(`asyncio.gather` preserves the order of its arguments, so the result
list is in configured-judge order), then one `_run_meta_judge` over
the complete judge result list.  Every branch of the judge and
meta-judge runners returns a value (the gateway and the parsers catch
their exceptions), so the evaluation is total: it never raises for an
individual judge failure. -/
def evaluate_review_consensus (ev : Evaluator) (gw : String → String → Option String)
    (parse : String → Option JVal) (review_text : String) (code_context : String) :
    EvaluationResult :=
  let judge_prompt := create_judge_prompt review_text code_context
  let judges := ev.judge_model_ids.map (fun j => run_single_judge j (gw j judge_prompt) parse)
  let meta := run_meta_judge ev.meta_judge_model_id review_text judges gw parse
  { original_review := review_text
    code_context_provided := code_context != ""
    judges := judges
    meta_judge := meta }

/-- The outcome of one raw API attempt inside `LLMClient.query_llm`
(llm_client.py lines 126-158): either the completion arrived with a
message (whose content may be `None` or empty), or the completion had
an unexpected structure (line 143), or one of the caught exception
classes fired.  All non-success outcomes fall through to the retry
logic. -/
inductive CallOutcome where
  | success (content : Option String)
  | badStructure
  | rateLimitError
  | apiTimeoutError
  | apiStatusError
  | otherError

/-- Whether an attempt outcome is one of the retried (transient)
classes: everything except a structurally-sound success is retried
(lines 143-158 all fall through to the backoff block). -/
def isTransientFailure (o : CallOutcome) : Bool :=
  match o with
  | .success _ => false
  | _ => true

/-- What one `query_llm` call did: the returned value (`none` models a
Python `None` return), the number of API attempts performed, and the
backoff delays slept between attempts, in order. -/
structure QueryOutcome where
  result : Option String
  attempts : Nat
  delays : List Nat

/-- The retry loop of `query_llm` (lines 125-165), with the API as an
oracle from the 0-based attempt number to its outcome.  `remaining` is
how many iterations `range(max_retries + 1)` still has; the loop is
entered with `remaining = max_retries + 1 ≥ 1`, so the `0` case is
unreachable from `query_llm`.  On a structurally-sound success the
loop returns at once (empty or `None` content is normalised to the
empty string, lines 139-142); on a transient failure with attempts
left it sleeps `delay` and doubles it, capping at the literal ceiling
60 (line 162); after the last attempt it returns `None`
(line 165). -/
def query_llm_loop (oracle : Nat → CallOutcome) :
    Nat → Nat → Nat → QueryOutcome
  | 0, _, _ => { result := none, attempts := 0, delays := [] }
  | remaining + 1, attempt, delay =>
    match oracle attempt with
    | .success content =>
      let text := match content with
        | none => ""
        | some s => if s.trim = "" then "" else s
      { result := some text, attempts := 1, delays := [] }
    | _ =>
      if remaining = 0 then { result := none, attempts := 1, delays := [] }
      else
        let rest := query_llm_loop oracle remaining (attempt + 1) (min (2 * delay) 60)
        { result := rest.result, attempts := rest.attempts + 1, delays := delay :: rest.delays }

/-- `LLMClient.query_llm` (lines 86-165).  The two permanent failure
checks precede the loop: an unknown model id (line 100) and a missing
API key for the models provider (line 104) both return `None`
immediately, with zero API attempts and no retry.  Otherwise the retry
loop runs with `max_retries + 1` total attempts starting from the
configured `initial_delay`.  (The `OpenAI(...)` constructor failure at
line 112 also returns `None` immediately; it is a local library fault
of the same immediate-failure shape and is not modelled
separately.) -/
def query_llm (known_model : Bool) (has_api_key : Bool) (max_retries : Nat)
    (initial_delay : Nat) (oracle : Nat → CallOutcome) : QueryOutcome :=
  if !known_model then { result := none, attempts := 0, delays := [] }
  else if !has_api_key then { result := none, attempts := 0, delays := [] }
  else query_llm_loop oracle (max_retries + 1) 0 initial_delay

/-- The delay slept before retry `k` when the loop starts from
`initial`: `backoff_from initial 0 = initial` and each subsequent
delay is the previous one doubled, capped at 60 (line 162). -/
def backoff_from (initial : Nat) : Nat → Nat
  | 0 => initial
  | k + 1 => backoff_from (min (2 * initial) 60) k

/-- One outbound Provider Gateway call made while evaluating a single
artifact: a judge call or the meta-judge call. -/
inductive GatewayEvent where
  | judgeCall (model_id : String)
  | metaCall (model_id : String)

/-- The order in which `evaluate_review_consensus` issues its gateway
calls.  The judge calls run concurrently under `asyncio.gather`
(line 218) and may complete in any interleaving, abstracted by
`order`; `gather` returns only once every judge task has resolved
(success or failure alike), and only then is `_run_meta_judge` awaited
(line 220), so the meta call is the last event for every `order`. -/
def evaluate_gateway_trace (ev : Evaluator) (order : List String) : List GatewayEvent :=
  order.map GatewayEvent.judgeCall ++ [GatewayEvent.metaCall ev.meta_judge_model_id]

/-- The review data `load_review_data` extracts from an input file. -/
structure ReviewData where
  review_text : String
  code_context : String

/-- `process_file_with_limit` (lines 305-323), after the semaphore is
acquired: `loaded` is the outcome of `load_review_data` (line 308,
`none` when the file is skipped as unreadable), and
`output_file_exists` records whether the deterministic output file
`{stem}_qualitative_eval.json` is already present before the run.
The source never consults the output path before evaluating — there
is no existence check anywhere in the function — so the parameter is
unused, exactly as in the code. -/
def process_file_with_limit (ev : Evaluator) (gw : String → String → Option String)
    (parse : String → Option JVal) (loaded : Option ReviewData)
    (output_file_exists : Bool) : Option EvaluationResult :=
  match loaded with
  | some rd => some (evaluate_review_consensus ev gw parse rd.review_text rd.code_context)
  | none => none

/-- The gateway calls `process_file_with_limit` makes for one input
file: the full per-artifact trace whenever the review data loads,
regardless of `output_file_exists`; none otherwise. -/
def process_file_gateway_trace (ev : Evaluator) (order : List String)
    (loaded : Option ReviewData) (output_file_exists : Bool) : List GatewayEvent :=
  match loaded with
  | some _ => evaluate_gateway_trace ev order
  | none => []

/-- How `run_evaluation_pipeline` (lines 284-328) ends.  Every branch
returns normally: the config-load failure (line 290) and the
client/evaluator initialisation failure (line 296) are caught, logged
as critical and followed by a plain `return`. -/
inductive PipelineOutcome where
  | configLoadFailed
  | initFailed
  | noFiles
  | finished (evaluated : Nat)

/-- `run_evaluation_pipeline` over its effect summary: `config_load`
is the parsed config (`none` for an unreadable/unparsable file),
`client_init_ok` whether the `LLMClient` constructor succeeded, and
`files` the discovered input files, each with its `load_review_data`
outcome.  `finished n` counts the files that were actually
evaluated. -/
def run_evaluation_pipeline (config_load : Option (List ModelEntry))
    (client_init_ok : Bool) (files : List (Option ReviewData)) : PipelineOutcome :=
  match config_load with
  | none => .configLoadFailed
  | some models =>
    if !client_init_ok then .initFailed
    else
      match evaluator_init models with
      | .error _ => .initFailed
      | .ok _ =>
        if files.isEmpty then .noFiles
        else .finished (files.countP (fun f => f.isSome))

/-- The number of Provider Gateway calls the whole pipeline run makes:
zero on any startup failure (the function returns before touching the
input directory), otherwise `judge count + 1` per loadable file. -/
def pipeline_gateway_call_count (config_load : Option (List ModelEntry))
    (client_init_ok : Bool) (files : List (Option ReviewData)) : Nat :=
  match config_load with
  | none => 0
  | some models =>
    if !client_init_ok then 0
    else
      match evaluator_init models with
      | .error _ => 0
      | .ok ev => (files.countP (fun f => f.isSome)) * (ev.judge_model_ids.length + 1)

/-- The process exit code of the `__main__` block (lines 330-362):
`exit(1)` fires only when the config file does not exist (line 346) or
the reviews input path is not a directory (line 349).  Configuration
faults inside the pipeline — no judge role, no meta-judge role,
unparsable config — are caught by `run_evaluation_pipeline` itself
(lines 289-297), so `asyncio.run` returns normally and the process
falls through to the success path, exiting 0.  (`KeyboardInterrupt`
and exceptions escaping the event loop are outside the model.) -/
def main_exit_code (config_file_exists : Bool) (input_dir_is_dir : Bool) : Nat :=
  if !config_file_exists then 1
  else if !input_dir_is_dir then 1
  else 0

/-- One criterion value as the specification words it: an integer in
`[SCORE_MIN, SCORE_MAX]`.  Stated from the spec sentence for the
comparison in claim C2, not from the source. -/
def spec_score_ok (x : Option JVal) : Bool :=
  match x with
  | some (.jint n) => decide (SCORE_MIN ≤ n) && decide (n ≤ SCORE_MAX)
  | _ => false

/-- Judge-verdict validity as the specification words it: a JSON
object carrying every criterion key with an integer value in `[1,5]`
plus a string rationale.  Stated from the spec sentence for the
comparison in claim C2, not from the source. -/
def spec_judge_schema_valid (v : JVal) : Bool :=
  isDict v
  && CRITERIA.all (fun k => spec_score_ok (pyGet v k))
  && pyIsStr (pyGet v "reasoning")

/-- One criterion value as the source actually accepts it: a JSON
integer in range, or — because Python `bool` is a subclass of `int`
with `True == 1` and `False == 0` — the JSON boolean `true` (while
`false`, being 0, is out of range). -/
def accepted_score (x : Option JVal) : Bool :=
  match x with
  | some (.jint n) => decide (SCORE_MIN ≤ n) && decide (n ≤ SCORE_MAX)
  | some (.jbool b) => b
  | _ => false

/-- Judge-verdict validity restated over `accepted_score`: the shape
`judge_schema_valid` is proved equivalent to. -/
def amended_judge_schema_valid (v : JVal) : Bool :=
  isDict v
  && CRITERIA.all (fun k => accepted_score (pyGet v k))
  && pyIsStr (pyGet v "reasoning")

/-- Meta-verdict validity restated over `accepted_score`. -/
def amended_meta_schema_valid (v : JVal) : Bool :=
  isDict v
  && META_CRITERIA.all (fun k => accepted_score (pyGet v k))
  && (["analysis", "consensus_reasoning"] : List String).all (fun k => pyIsStr (pyGet v k))

/-- A judge payload whose `factual_correctness` is the JSON boolean
`true` instead of an integer. -/
def boolScorePayload : JVal :=
  .jobj [("factual_correctness", .jbool true), ("actionability", .jint 3),
         ("analytical_depth", .jint 3), ("reasoning", .jstr "ok")]

/-- A well-formed judge payload with all integer scores in range. -/
def goodJudgePayload : JVal :=
  .jobj [("factual_correctness", .jint 3), ("actionability", .jint 4),
         ("analytical_depth", .jint 5), ("reasoning", .jstr "ok")]

/-- A two-judge, one-meta-judge model configuration. -/
def sampleModels : List ModelEntry :=
  [{ id := "judge-A", role := some "judge" },
   { id := "judge-B", role := some "judge" },
   { id := "meta-1", role := some "meta-judge" }]

/-- The evaluator `evaluator_init sampleModels` produces. -/
def sampleEvaluator : Evaluator :=
  { judge_model_ids := ["judge-A", "judge-B"], meta_judge_model_id := "meta-1" }

/-- A model configuration with a meta-judge but no judge-role model. -/
def noJudgeModels : List ModelEntry :=
  [{ id := "meta-1", role := some "meta-judge" }]

/-- A loaded artifact. -/
def sampleReview : ReviewData := { review_text := "Bugs Found: none", code_context := "" }

/-- A gateway on which every call fails after retries. -/
def failingGw : String → String → Option String := fun _ _ => none

/-- A parse oracle on which nothing parses. -/
def failingParse : String → Option JVal := fun _ => none

/-- An invalid judge verdict as produced for a malformed payload. -/
def invalidVerdictA : JudgeResult :=
  { judge_id := "judge-A", raw_output := some "boom", parsed_result := none,
    error := some "Invalid JSON format" }

/-- An invalid judge verdict as produced for a failed gateway call. -/
def invalidVerdictB : JudgeResult :=
  { judge_id := "judge-B", raw_output := none, parsed_result := none,
    error := some "No response from judge judge-B after retries." }

lemma run_single_judge_judge_id (j : String) (raw : Option String)
    (parse : String → Option JVal) : (run_single_judge j raw parse).judge_id = j := by
  cases raw with
  | none => rfl
  | some s =>
    by_cases hs : s = ""
    · simp [run_single_judge, hs]
    · simp only [run_single_judge, hs, ite_false]
      cases hp : parse (clean_output s) with
      | none => rfl
      | some v => by_cases hv : judge_schema_valid v <;> simp [hv]

lemma run_single_judge_exclusive (j : String) (raw : Option String)
    (parse : String → Option JVal) :
    (run_single_judge j raw parse).parsed_result.isSome
      = (run_single_judge j raw parse).error.isNone := by
  cases raw with
  | none => rfl
  | some s =>
    by_cases hs : s = ""
    · simp [run_single_judge, hs]
    · simp only [run_single_judge, hs, ite_false]
      cases hp : parse (clean_output s) with
      | none => rfl
      | some v => by_cases hv : judge_schema_valid v <;> simp [hv]

lemma run_meta_judge_exclusive (meta_id review : String) (outputs : List JudgeResult)
    (gw : String → String → Option String) (parse : String → Option JVal) :
    (run_meta_judge meta_id review outputs gw parse).parsed_result.isSome
      = (run_meta_judge meta_id review outputs gw parse).error.isNone := by
  by_cases he : outputs.isEmpty
  · simp [run_meta_judge, he]
  · simp only [run_meta_judge, he, ite_false]
    cases hg : gw meta_id (get_meta_judge_prompt review outputs) with
    | none => rfl
    | some s =>
      by_cases hs : s = ""
      · simp [hs]
      · simp only [hs, ite_false]
        cases hp : parse (clean_output s) with
        | none => rfl
        | some v => by_cases hv : meta_schema_valid v <;> simp [hv]

/-- Claim C10: every judge result and every meta-judge result, as
returned from its creating function, has exactly one of
`parsed_result` and `error` non-null — valid verdicts carry parsed
scores and no error, invalid ones an error reason and no scores,
never both and never neither. -/
theorem verdict_exactly_one_of_parsed_or_error :
    ∀ (j : String) (raw : Option String) (parse : String → Option JVal)
      (meta_id review : String) (outputs : List JudgeResult)
      (gw : String → String → Option String),
    ((run_single_judge j raw parse).parsed_result.isSome
       = (run_single_judge j raw parse).error.isNone)
    ∧ ((run_meta_judge meta_id review outputs gw parse).parsed_result.isSome
       = (run_meta_judge meta_id review outputs gw parse).error.isNone) :=
  fun j raw parse meta_id review outputs gw =>
    ⟨run_single_judge_exclusive j raw parse,
     run_meta_judge_exclusive meta_id review outputs gw parse⟩

lemma evaluator_init_ok_spec (models : List ModelEntry) (ev : Evaluator)
    (h : evaluator_init models = .ok ev) :
    ev.judge_model_ids = judge_ids models ∧ (judge_ids models).isEmpty = false := by
  unfold evaluator_init at h
  split at h
  · exact absurd h (by simp)
  · next hne =>
    split at h
    · exact absurd h (by simp)
    · next m rest =>
      injection h with h'
      subst h'
      exact ⟨rfl, by simpa using hne⟩

/-- Claim C1: the verdict list of one artifact evaluation has exactly
one entry per configured judge model, in configuration order, each
carrying that judge's identity, for every gateway behaviour (hence
regardless of how many judge calls failed); totality of
`evaluate_review_consensus` models that the evaluation never raises
for an individual judge failure. -/
theorem judges_one_entry_per_configured_judge :
    ∀ (models : List ModelEntry) (ev : Evaluator) (gw : String → String → Option String)
      (parse : String → Option JVal) (review ctx : String),
    evaluator_init models = .ok ev →
    (evaluate_review_consensus ev gw parse review ctx).judges.map (fun r => r.judge_id)
      = judge_ids models := by
  intro models ev gw parse review ctx h
  have hids := (evaluator_init_ok_spec models ev h).1
  simp [evaluate_review_consensus, List.map_map, Function.comp_def,
    run_single_judge_judge_id, hids]

/-- Witness for C1 at a concrete two-judge configuration with every
gateway call failing. -/
theorem judges_one_entry_per_configured_judge_witness :
    (evaluate_review_consensus sampleEvaluator failingGw failingParse "r" "").judges.map
        (fun r => r.judge_id) = judge_ids sampleModels :=
  judges_one_entry_per_configured_judge sampleModels sampleEvaluator failingGw failingParse
    "r" "" rfl

/-- Claim C7: within one artifact, the meta-judge gateway call comes
strictly after every judge gateway call, for every completion
interleaving `order` of the judge tasks — the `asyncio.gather` fan-in
barrier. -/
theorem meta_call_after_all_judge_calls :
    ∀ (ev : Evaluator) (order : List String) (i j : Nat) (mid jid : String),
    (evaluate_gateway_trace ev order)[i]? = some (GatewayEvent.metaCall mid) →
    (evaluate_gateway_trace ev order)[j]? = some (GatewayEvent.judgeCall jid) →
    j < i := by
  intro ev order i j mid jid hm hj
  unfold evaluate_gateway_trace at hm hj
  have hlen : (order.map GatewayEvent.judgeCall).length = order.length := by simp
  have hi : order.length ≤ i := by
    by_contra hlt
    push_neg at hlt
    rw [List.getElem?_append_left (by simpa [hlen] using hlt)] at hm
    rw [List.getElem?_map] at hm
    cases ho : order[i]? with
    | none => rw [ho] at hm; exact absurd hm (by simp)
    | some y => rw [ho] at hm; exact absurd hm (by simp)
  have hjlt : j < order.length := by
    by_contra hge
    push_neg at hge
    rw [List.getElem?_append_right (by simpa [hlen] using hge)] at hj
    rcases hsub : j - (order.map GatewayEvent.judgeCall).length with _ | n
    · rw [hsub] at hj
      exact absurd hj (by simp)
    · rw [hsub] at hj
      exact absurd hj (by simp)
  exact lt_of_lt_of_le hjlt hi

/-- Witness for C7 on a one-judge trace: the meta call at index 1 is
after the judge call at index 0. -/
theorem meta_call_after_all_judge_calls_witness :
    (evaluate_gateway_trace sampleEvaluator ["judge-A"])[1]?
        = some (GatewayEvent.metaCall "meta-1")
    ∧ (evaluate_gateway_trace sampleEvaluator ["judge-A"])[0]?
        = some (GatewayEvent.judgeCall "judge-A")
    ∧ 0 < 1 :=
  ⟨rfl, rfl,
   meta_call_after_all_judge_calls sampleEvaluator ["judge-A"] 1 0 "meta-1" "judge-A" rfl rfl⟩

lemma run_meta_judge_model_id (meta_id review : String) (outputs : List JudgeResult)
    (gw : String → String → Option String) (parse : String → Option JVal)
    (h : outputs.isEmpty = false) :
    (run_meta_judge meta_id review outputs gw parse).model_id = some meta_id := by
  unfold run_meta_judge
  rw [h]
  simp only [Bool.false_eq_true, if_false]
  cases hg : gw meta_id (get_meta_judge_prompt review outputs) with
  | none => rfl
  | some s =>
    by_cases hs : s = ""
    · simp [hs]
    · simp only [hs, ite_false]
      cases hp : parse (clean_output s) with
      | none => rfl
      | some v => by_cases hv : meta_schema_valid v <;> simp [hv]

lemma run_meta_judge_gateway_failure (meta_id review : String) (outputs : List JudgeResult)
    (gw : String → String → Option String) (parse : String → Option JVal)
    (h : outputs.isEmpty = false)
    (hg : gw meta_id (get_meta_judge_prompt review outputs) = none) :
    (run_meta_judge meta_id review outputs gw parse).parsed_result = none
    ∧ (run_meta_judge meta_id review outputs gw parse).error
        = some ("No response from meta-judge " ++ meta_id ++ " after retries.") := by
  unfold run_meta_judge
  rw [h]
  simp [hg]

/-- Claim C5: with at least one configured judge (guaranteed whenever
`evaluator_init` succeeded), the meta-judge is always invoked — even
when every judge verdict in the list is invalid, since the verdict
list is passed whole and only its emptiness is checked — and a failed
synthesis call records a null parsed result with a failure reason
while the full judge verdict list is still retained in the evaluation
result; totality models that the failure is never fatal. -/
theorem meta_judge_always_invoked :
    ∀ (models : List ModelEntry) (ev : Evaluator) (gw : String → String → Option String)
      (parse : String → Option JVal) (review ctx : String),
    evaluator_init models = .ok ev →
    ((evaluate_review_consensus ev gw parse review ctx).meta_judge.model_id
        = some ev.meta_judge_model_id
     ∧ (evaluate_review_consensus ev gw parse review ctx).judges.length
        = ev.judge_model_ids.length
     ∧ (gw ev.meta_judge_model_id
          (get_meta_judge_prompt review
            (evaluate_review_consensus ev gw parse review ctx).judges) = none →
        (evaluate_review_consensus ev gw parse review ctx).meta_judge.parsed_result = none
        ∧ (evaluate_review_consensus ev gw parse review ctx).meta_judge.error
            = some ("No response from meta-judge " ++ ev.meta_judge_model_id
                ++ " after retries."))) := by
  intro models ev gw parse review ctx h
  obtain ⟨hids, hne⟩ := evaluator_init_ok_spec models ev h
  have hnil : ev.judge_model_ids ≠ [] := by
    intro hn
    rw [← hids, hn] at hne
    simp at hne
  have hnonempty : ((ev.judge_model_ids.map
      (fun j => run_single_judge j (gw j (create_judge_prompt review ctx)) parse))).isEmpty
        = false := by
    rcases hl : ev.judge_model_ids with _ | ⟨a, l⟩
    · exact absurd hl hnil
    · simp
  refine ⟨?_, ?_, ?_⟩
  · simpa [evaluate_review_consensus] using
      run_meta_judge_model_id ev.meta_judge_model_id review _ gw parse hnonempty
  · simp [evaluate_review_consensus]
  · intro hg
    simp only [evaluate_review_consensus] at hg ⊢
    exact run_meta_judge_gateway_failure ev.meta_judge_model_id review _ gw parse hnonempty hg

/-- Witness for C5: two configured judges, every gateway call failing,
so every judge verdict is invalid and the synthesis call fails too. -/
theorem meta_judge_always_invoked_witness :
    (evaluate_review_consensus sampleEvaluator failingGw failingParse "r" "").meta_judge.model_id
        = some "meta-1"
    ∧ (evaluate_review_consensus sampleEvaluator failingGw failingParse "r" "").meta_judge.error
        = some "No response from meta-judge meta-1 after retries." := by
  have h := meta_judge_always_invoked sampleModels sampleEvaluator failingGw failingParse
    "r" "" rfl
  exact ⟨h.1, (h.2.2 rfl).2⟩

lemma backoff_from_zero (d : Nat) : backoff_from d 0 = d := rfl

lemma backoff_from_step (d k : Nat) :
    backoff_from d (k + 1) = backoff_from (min (2 * d) 60) k := rfl

lemma backoff_from_doubling (d : Nat) : ∀ k, backoff_from d (k + 1) = min (2 * backoff_from d k) 60 := by
  intro k
  induction k generalizing d with
  | zero => rfl
  | succ n ih =>
    rw [backoff_from_step d (n + 1), ih (min (2 * d) 60), ← backoff_from_step d n]

lemma query_llm_loop_all_fail (oracle : Nat → CallOutcome)
    (h : ∀ k, isTransientFailure (oracle k) = true) :
    ∀ (r a d : Nat), query_llm_loop oracle (r + 1) a d
      = { result := none, attempts := r + 1, delays := (List.range r).map (backoff_from d) } := by
  intro r
  induction r with
  | zero =>
    intro a d
    have ht := h a
    unfold query_llm_loop
    cases ho : oracle a with
    | success c => rw [ho] at ht; simp [isTransientFailure] at ht
    | badStructure => simp
    | rateLimitError => simp
    | apiTimeoutError => simp
    | apiStatusError => simp
    | otherError => simp
  | succ n ih =>
    intro a d
    have ht := h a
    have hr : (List.range (n + 1)).map (backoff_from d)
        = d :: (List.range n).map (backoff_from (min (2 * d) 60)) := by
      rw [List.range_succ_eq_map, List.map_cons, backoff_from_zero, List.map_map]
      rfl
    unfold query_llm_loop
    cases ho : oracle a with
    | success c => rw [ho] at ht; simp [isTransientFailure] at ht
    | badStructure => simp [ih (a + 1) (min (2 * d) 60), hr]
    | rateLimitError => simp [ih (a + 1) (min (2 * d) 60), hr]
    | apiTimeoutError => simp [ih (a + 1) (min (2 * d) 60), hr]
    | apiStatusError => simp [ih (a + 1) (min (2 * d) 60), hr]
    | otherError => simp [ih (a + 1) (min (2 * d) 60), hr]

/-- Claim C6: permanent gateway failures (unknown model id, missing
API key) return the failure value immediately with zero attempts and
no retry, while an oracle that fails transiently on every attempt
(rate limit, timeout, status or transport error, malformed completion)
is retried for exactly the configured `max_retries + 1` attempts with
the backoff delays starting at the configured initial delay and
doubling, capped at the ceiling 60, after which the failure value is
returned instead of an exception being raised. -/
theorem gateway_retry_backoff :
    ∀ (mr d : Nat) (oracle : Nat → CallOutcome),
    query_llm false true mr d oracle = { result := none, attempts := 0, delays := [] }
    ∧ query_llm true false mr d oracle = { result := none, attempts := 0, delays := [] }
    ∧ ((∀ k, isTransientFailure (oracle k) = true) →
        query_llm true true mr d oracle
          = { result := none, attempts := mr + 1,
              delays := (List.range mr).map (backoff_from d) })
    ∧ backoff_from d 0 = d
    ∧ (∀ k, backoff_from d (k + 1) = min (2 * backoff_from d k) 60) := by
  intro mr d oracle
  refine ⟨rfl, rfl, ?_, rfl, backoff_from_doubling d⟩
  intro h
  unfold query_llm
  simp only [Bool.not_true, Bool.false_eq_true, if_false]
  exact query_llm_loop_all_fail oracle h mr 0 d

/-- Witness for C6: three attempts with delays 2 then 4 on an
always-rate-limited oracle with `max_retries = 2`, `initial_delay = 2`. -/
theorem gateway_retry_backoff_witness :
    query_llm true true 2 2 (fun _ => CallOutcome.rateLimitError)
      = { result := none, attempts := 3, delays := [2, 4] } := by
  have h := (gateway_retry_backoff 2 2 (fun _ => CallOutcome.rateLimitError)).2.2.1
    (fun k => rfl)
  rw [h]
  rfl

lemma accepted_score_iff (x : Option JVal) :
    accepted_score x = true
      ↔ (x.isSome = true ∧ pyIsInt x = true
          ∧ SCORE_MIN ≤ pyIntVal x ∧ pyIntVal x ≤ SCORE_MAX) := by
  rcases x with _ | v
  · simp [accepted_score, pyIsInt]
  · rcases v with _ | b | n | _ | s | elems | fields
    · simp [accepted_score, pyIsInt]
    · cases b <;> simp [accepted_score, pyIsInt, pyIntVal, SCORE_MIN, SCORE_MAX]
    · simp [accepted_score, pyIsInt, pyIntVal]
    · simp [accepted_score, pyIsInt]
    · simp [accepted_score, pyIsInt]
    · simp [accepted_score, pyIsInt]
    · simp [accepted_score, pyIsInt]

lemma pyIsStr_isSome (x : Option JVal) (h : pyIsStr x = true) : x.isSome = true := by
  rcases x with _ | v
  · simp [pyIsStr] at h
  · rfl

lemma bool_eq_of_iff {a b : Bool} (h : a = true ↔ b = true) : a = b := by
  cases a <;> cases b <;> simp_all

lemma judge_schema_valid_eq_amended (v : JVal) :
    judge_schema_valid v = amended_judge_schema_valid v := by
  apply bool_eq_of_iff
  have hstr := pyIsStr_isSome (pyGet v "reasoning")
  simp only [judge_schema_valid, amended_judge_schema_valid, CRITERIA,
    List.cons_append, List.nil_append, List.all_cons, List.all_nil,
    Bool.and_eq_true, Bool.and_true, and_true, decide_eq_true_eq,
    accepted_score_iff]
  tauto

lemma meta_schema_valid_eq_amended (v : JVal) :
    meta_schema_valid v = amended_meta_schema_valid v := by
  apply bool_eq_of_iff
  have hstr1 := pyIsStr_isSome (pyGet v "analysis")
  have hstr2 := pyIsStr_isSome (pyGet v "consensus_reasoning")
  simp only [meta_schema_valid, amended_meta_schema_valid, META_CRITERIA, CRITERIA,
    List.map_cons, List.map_nil, List.cons_append, List.nil_append,
    List.all_cons, List.all_nil,
    Bool.and_eq_true, Bool.and_true, and_true, decide_eq_true_eq,
    accepted_score_iff]
  tauto

/-- Counterexample to claim C2 as stated: the payload whose
`factual_correctness` is the JSON boolean `true` — not an integer —
is marked valid by the source checks, because Python `bool` is a
subclass of `int` and `True` compares as 1, so validity is not
equivalent to every criterion key holding an integer in range. -/
theorem bool_score_accepted_counterexample :
    judge_schema_valid boolScorePayload = true
    ∧ spec_judge_schema_valid boolScorePayload = false
    ∧ pyGet boolScorePayload "factual_correctness" = some (JVal.jbool true) :=
  ⟨rfl, rfl, rfl⟩

/-- Claim C2 amended: verdict validity is all-or-nothing — a payload
is marked valid iff it is a JSON object carrying every criterion key
with a value that is either an integer in `[SCORE_MIN, SCORE_MAX]` or
(because Python treats booleans as the integers 1 and 0) the boolean
`true`, plus a string rationale; the meta-judge payload is validated
by the same rule over the `final_`-prefixed keys plus its two string
fields; and a valid payload is stored verbatim — in particular an
out-of-range score is never clamped, it invalidates the whole
verdict. -/
theorem verdict_validity_all_or_nothing :
    ∀ (v : JVal) (j s : String) (parse : String → Option JVal),
    judge_schema_valid v = amended_judge_schema_valid v
    ∧ meta_schema_valid v = amended_meta_schema_valid v
    ∧ (s ≠ "" → parse (clean_output s) = some v →
        (run_single_judge j (some s) parse).parsed_result
          = (if judge_schema_valid v then some v else none)) := by
  intro v j s parse
  refine ⟨judge_schema_valid_eq_amended v, meta_schema_valid_eq_amended v, ?_⟩
  intro hs hp
  unfold run_single_judge
  simp only [hs, ite_false, hp]
  by_cases hv : judge_schema_valid v <;> simp [hv]

/-- Witness for the amended C2 at a concrete all-integer payload:
stored exactly as parsed. -/
theorem verdict_validity_all_or_nothing_witness :
    (run_single_judge "j" (some "x") (fun _ => some goodJudgePayload)).parsed_result
      = some goodJudgePayload := by
  have h := (verdict_validity_all_or_nothing goodJudgePayload "j" "x"
      (fun _ => some goodJudgePayload)).2.2 (by decide) rfl
  rw [h]
  rfl

/-- Counterexample to claim C3 as stated: an artifact whose output
file already exists (`output_file_exists = true`) and whose review
data loads is evaluated anyway — three gateway calls (two judges plus
the meta-judge) are made for it, and the evaluation result is
produced, so nothing is skipped. -/
theorem existing_output_not_skipped_counterexample :
    (process_file_gateway_trace sampleEvaluator ["judge-A", "judge-B"]
        (some sampleReview) true).length = 3
    ∧ (process_file_with_limit sampleEvaluator failingGw failingParse
        (some sampleReview) true).isSome = true :=
  ⟨rfl, rfl⟩

/-- Claim C3 amended: the batch is not idempotent — output-file
existence is never consulted, so an artifact is processed identically
whether or not its output file already exists, and every loadable
artifact costs the full `judge count + 1` gateway calls on every
run. -/
theorem output_existence_ignored :
    ∀ (ev : Evaluator) (order : List String) (gw : String → String → Option String)
      (parse : String → Option JVal) (loaded : Option ReviewData) (e₁ e₂ : Bool),
    process_file_with_limit ev gw parse loaded e₁ = process_file_with_limit ev gw parse loaded e₂
    ∧ process_file_gateway_trace ev order loaded e₁
        = process_file_gateway_trace ev order loaded e₂
    ∧ (loaded.isSome = true →
        (process_file_gateway_trace ev order loaded e₁).length = order.length + 1) := by
  intro ev order gw parse loaded e₁ e₂
  refine ⟨?_, ?_, ?_⟩
  · cases loaded <;> rfl
  · cases loaded <;> rfl
  · intro h
    cases loaded with
    | none => simp at h
    | some rd => simp [process_file_gateway_trace, evaluate_gateway_trace]

/-- Witness for the amended C3 on the two-judge configuration without
a pre-existing output file. -/
theorem output_existence_ignored_witness :
    (process_file_gateway_trace sampleEvaluator ["judge-A", "judge-B"]
        (some sampleReview) false).length = 3 :=
  (output_existence_ignored sampleEvaluator ["judge-A", "judge-B"] failingGw failingParse
      (some sampleReview) false true).2.2 rfl

set_option maxRecDepth 100000 in
/-- Counterexample to claim C4 as stated: for two concrete invalid
verdicts the synthesis prompt section string contains the two real
judge identities, in exactly the order the verdicts were passed
(the configured order), with no positional label and no shuffling —
`inputs_str` is a plain function of its input. -/
theorem meta_prompt_exposes_judge_identity_counterexample :
    inputs_str [invalidVerdictA, invalidVerdictB]
      = "--- Judge: judge-A ---\nStatus: Error - Invalid JSON format\nRaw Output: boom... \n\n--- Judge: judge-B ---\nStatus: Error - No response from judge judge-B after retries.\nRaw Output: N/A\n\n" := by
  decide

/-- Claim C4 amended: the meta-judge prompt lists one section per
verdict, in the order the verdicts appear (the configured judge
order), each section headed by the verdict's real judge identity; the
prompt is a deterministic function of the review text and the verdict
list, with no randomized labels and no per-call shuffle. -/
theorem meta_prompt_fixed_order :
    ∀ (review : String) (outputs : List JudgeResult),
    get_meta_judge_prompt review outputs
        = META_PROMPT_P1 ++ review ++ META_PROMPT_P2
          ++ String.join (outputs.map (fun r => judge_header r ++ judge_body r))
          ++ META_PROMPT_P3
    ∧ outputs.map (fun r => judge_header r)
        = outputs.map (fun r => "--- Judge: " ++ r.judge_id ++ " ---\n") := by
  intro review outputs
  exact ⟨rfl, rfl⟩

/-- Counterexample to claim C8 as stated: the gateway does return the
empty string for an empty-content success, a value distinct from the
`None` failure, but `_run_single_judge` does not treat it as a
success — its truthiness check converts it into a no-response
call-failure verdict reason. -/
theorem empty_response_treated_as_failure_counterexample :
    (query_llm true true 3 2 (fun _ => CallOutcome.success none)).result = some ""
    ∧ some "" ≠ (none : Option String)
    ∧ (run_single_judge "judge-A" (some "") failingParse).error
        = some "No response from judge judge-A after retries."
    ∧ (run_single_judge "judge-A" (some "") failingParse).parsed_result = none := by
  refine ⟨by rfl, by simp, rfl, rfl⟩

/-- Claim C8 amended: a successful gateway call with empty (or
whitespace-only, or `None`) message content returns the empty string,
a success value distinct from the `None` returned on exhausted
retries; the calling judge runner, however, treats that empty string
exactly like a failed call, recording a no-response error verdict
rather than a success. -/
theorem empty_success_distinct_but_caller_rejects :
    ∀ (mr d : Nat) (j : String) (parse : String → Option JVal),
    (query_llm true true mr d (fun _ => CallOutcome.success none)).result = some ""
    ∧ some "" ≠ (none : Option String)
    ∧ (run_single_judge j (some "") parse).parsed_result = none
    ∧ (run_single_judge j (some "") parse).error
        = some ("No response from judge " ++ j ++ " after retries.") := by
  intro mr d j parse
  refine ⟨?_, by simp, rfl, rfl⟩
  unfold query_llm query_llm_loop
  rfl

/-- Counterexample to claim C9 as stated: a configuration with no
judge-role model is a startup fault that aborts before any artifact
work (zero gateway calls), yet with the config file and input
directory both present the process exit code is 0, not non-zero. -/
theorem config_fault_exits_zero_counterexample :
    run_evaluation_pipeline (some noJudgeModels) true [some sampleReview]
        = PipelineOutcome.initFailed
    ∧ pipeline_gateway_call_count (some noJudgeModels) true [some sampleReview] = 0
    ∧ main_exit_code true true = 0 :=
  ⟨rfl, rfl, rfl⟩

/-- Claim C9 amended: a registry fault (no judge role or no meta-judge
role) is still fatal to the run itself — the pipeline stops before any
artifact work, making zero gateway calls — but the process exit code
stays 0; the process exits non-zero exactly when the config file is
missing or the input path is not a directory. -/
theorem config_fault_aborts_but_exit_zero :
    ∀ (models : List ModelEntry) (cOk : Bool) (files : List (Option ReviewData))
      (e : String) (a b : Bool),
    (evaluator_init models = .error e →
      run_evaluation_pipeline (some models) cOk files = PipelineOutcome.initFailed
      ∧ pipeline_gateway_call_count (some models) cOk files = 0)
    ∧ (main_exit_code a b = 0 ↔ (a = true ∧ b = true)) := by
  intro models cOk files e a b
  constructor
  · intro h
    cases cOk with
    | false => exact ⟨rfl, rfl⟩
    | true =>
      constructor
      · unfold run_evaluation_pipeline
        simp [h]
      · unfold pipeline_gateway_call_count
        simp [h]
  · cases a <;> cases b <;> simp [main_exit_code]

/-- Witness for the amended C9 at the judge-less configuration. -/
theorem config_fault_aborts_but_exit_zero_witness :
    run_evaluation_pipeline (some noJudgeModels) true [] = PipelineOutcome.initFailed :=
  ((config_fault_aborts_but_exit_zero noJudgeModels true []
      "Config Error: No models found with role judge in llm_models." true true).1 rfl).1
